import Mathlib

/-!
Verification of the checkpoint-submission validation and role-gated
access-control logic of the patrol check-in application.

The client-side capture state machine is embedded from
`src/components/SecureRounds.tsx`; the database-enforced authorization
model (row policies, role-change function, audit trigger) is embedded
from the SQL migrations under `supabase/migrations/`.
-/

namespace PatrolCheckIn

/-! ## Sanitization (SecureRounds.tsx lines 24-26)

`sanitizeInput` removes the characters `< > " ' &` and trims surrounding
whitespace, exactly as `input.replace(/[<>\"'&]/g, '').trim()` does. -/

/-- The characters removed by the regex `[<>\"'&]`. -/
def isDangerousChar (c : Char) : Bool :=
  c = '<' || c = '>' || c = '"' || c = '\'' || c = '&'

/-- Whitespace removed by JavaScript `String.prototype.trim` (space, tab,
line terminators, vertical tab, form feed, NBSP, BOM). -/
def isJsWhitespace (c : Char) : Bool :=
  c = ' ' || c = '\t' || c = '\n' || c = '\r' || c = '\x0b' || c = '\x0c' ||
  c = ' ' || c = '﻿'

/-- JavaScript `trim`: drop whitespace from both ends of the character list. -/
def trimChars (l : List Char) : List Char :=
  List.rdropWhile isJsWhitespace (List.dropWhile isJsWhitespace l)

/-- `sanitizeInput` from SecureRounds.tsx: strip `< > " ' &`, then trim. -/
def sanitizeInput (s : String) : String :=
  String.mk (trimChars (s.data.filter (fun c => !isDangerousChar c)))

/-- A string none of whose characters are in the stripped set `< > " ' &`. -/
def CleanStr (s : String) : Prop :=
  ∀ c ∈ s.data, isDangerousChar c = false

instance (s : String) : Decidable (CleanStr s) := by
  unfold CleanStr; infer_instance

theorem mem_of_mem_trimChars {c : Char} {l : List Char}
    (h : c ∈ trimChars l) : c ∈ l := by
  unfold trimChars at h
  exact ((List.rdropWhile_prefix _ _).sublist.subset h) |>
    fun h2 => (List.dropWhile_suffix _).sublist.subset h2

theorem sanitizeInput_clean (s : String) : CleanStr (sanitizeInput s) := by
  intro c hc
  have hmem : c ∈ s.data.filter (fun c => !isDangerousChar c) :=
    mem_of_mem_trimChars hc
  have := List.of_mem_filter hmem
  simpa using this

theorem dropWhile_cons_not {p : Char → Bool} {l t : List Char} {b : Char}
    (h : List.dropWhile p l = b :: t) : p b = false := by
  induction l with
  | nil => simp [List.dropWhile] at h
  | cons a l ih =>
    rw [List.dropWhile_cons] at h
    by_cases hpa : p a = true
    · rw [if_pos hpa] at h; exact ih h
    · rw [if_neg hpa] at h
      cases h
      simpa using hpa

/-- The trimmed list has no leading JS whitespace: dropping again from the
left is the identity. -/
theorem dropWhile_trimChars (l : List Char) :
    List.dropWhile isJsWhitespace (trimChars l) = trimChars l := by
  unfold trimChars
  generalize hA : List.dropWhile isJsWhitespace l = A
  rcases hB : List.rdropWhile isJsWhitespace A with _ | ⟨b, t⟩
  · simp [List.dropWhile]
  · have hpre : List.rdropWhile isJsWhitespace A <+: A :=
      List.rdropWhile_prefix _ _
    rw [hB] at hpre
    obtain ⟨t2, ht2⟩ := hpre
    have hAeq : List.dropWhile isJsWhitespace l = b :: (t ++ t2) := by
      rw [hA, ← ht2]; simp
    have hb : isJsWhitespace b = false := dropWhile_cons_not hAeq
    simp [List.dropWhile_cons, hb]

theorem trimChars_idempotent (l : List Char) :
    trimChars (trimChars l) = trimChars l := by
  have h1 : trimChars (trimChars l) =
      List.rdropWhile isJsWhitespace (List.dropWhile isJsWhitespace (trimChars l)) := rfl
  rw [h1, dropWhile_trimChars, trimChars, List.rdropWhile_idempotent]

theorem filter_of_clean {l : List Char}
    (h : ∀ c ∈ l, isDangerousChar c = false) :
    l.filter (fun c => !isDangerousChar c) = l := by
  apply List.filter_eq_self.mpr
  intro a ha
  simp [h a ha]

theorem sanitizeInput_idempotent (s : String) :
    sanitizeInput (sanitizeInput s) = sanitizeInput s := by
  unfold sanitizeInput
  have hclean : ∀ c ∈ trimChars (s.data.filter (fun c => !isDangerousChar c)),
      isDangerousChar c = false := by
    intro c hc
    have := List.of_mem_filter (mem_of_mem_trimChars hc)
    simpa using this
  simp only [String.data]
  rw [filter_of_clean hclean, trimChars_idempotent]

/-! ## Input validators (SecureRounds.tsx lines 16-38) -/

/-- Substring test over character lists (model of JavaScript regex substring
matching). -/
def containsSub (l pat : List Char) : Bool :=
  pat.isPrefixOf l ||
    (match l with
     | [] => false
     | _ :: t => containsSub t pat)

/-- Lower-case the characters of a string (model of the regex `i` flag). -/
def toLowerChars (s : String) : List Char :=
  s.data.map Char.toLower

/-- The regex `/<script|javascript:|data:|vbscript:/i`: case-insensitive
substring search for any of the four dangerous patterns. -/
def dangerousPatterns (s : String) : Bool :=
  let l := toLowerChars s
  containsSub l "<script".data || containsSub l "javascript:".data ||
  containsSub l "data:".data || containsSub l "vbscript:".data

/-- `validateQRCode` from SecureRounds.tsx: reject empty payloads, payloads
longer than 500 characters, and payloads matching the denylist. -/
def validateQRCode (qrData : String) : Bool :=
  if qrData.length = 0 then false
  else if 500 < qrData.length then false
  else !dangerousPatterns qrData

/-- `validateGPSCoordinates` from SecureRounds.tsx. Latitude and longitude
are modelled as rationals. -/
def validateGPSCoordinates (lat lng : ℚ) : Bool :=
  decide (-90 ≤ lat) && decide (lat ≤ 90) &&
  decide (-180 ≤ lng) && decide (lng ≤ 180)

/-- `validateTextInput` from SecureRounds.tsx: truthy (non-empty) input,
non-empty after sanitization, raw length within the bound. -/
def validateTextInput (input : String) (maxLength : Nat) : Bool :=
  decide (input ≠ "") && decide (0 < (sanitizeInput input).length) &&
  decide (input.length ≤ maxLength)

/-- `validateFileSize` from SecureRounds.tsx: `file.size` in bytes against
`maxSizeMB * 1024 * 1024`. -/
def validateFileSize (size : Nat) (maxSizeMB : Nat) : Bool :=
  decide (size ≤ maxSizeMB * 1024 * 1024)

/-! ## Capture state machine (SecureRounds.tsx lines 40-287)

The React component state is the record below; identities (Supabase UUIDs)
are modelled as naturals. -/

/-- A user identity (Supabase auth UUID). -/
abbrev UserId := Nat

/-- A latitude/longitude pair; JavaScript numbers are modelled as rationals. -/
structure Coordinates where
  lat : ℚ
  lng : ℚ
  deriving DecidableEq

/-- The `photoData` state: the captured file size in bytes and the
(possibly absent) GPS fix. -/
structure PhotoData where
  size : Nat
  coordinates : Option Coordinates
  deriving DecidableEq

/-- The `formData` React state. The display-only `timestamp` and the
`photo` mirror of `photoData.file` are omitted; `handleSubmit` validates
the photo through `photoData`, embedded separately in `MachineState`. -/
structure FormData where
  state : String
  siteCode : String
  siteName : String
  guardName : String
  employeeCode : String
  gpsLocation : String
  qrCodeCorner1 : String
  qrCodeCorner2 : String
  qrCodeCorner3 : String
  qrCodeCorner4 : String
  deriving DecidableEq

/-- The full capture-machine state: `formData`, `photoData`, and the
active corner `currentCorner` (source type `1 | 2 | 3 | 4`). -/
structure MachineState where
  formData : FormData
  photoData : Option PhotoData
  currentCorner : Nat
  deriving DecidableEq

/-- The initial component state: every field empty, no photo, corner 1. -/
def initialState : MachineState :=
  { formData :=
      { state := "", siteCode := "", siteName := "", guardName := "",
        employeeCode := "", gpsLocation := "", qrCodeCorner1 := "",
        qrCodeCorner2 := "", qrCodeCorner3 := "", qrCodeCorner4 := "" }
    photoData := none
    currentCorner := 1 }

/-- The five text inputs wired to `handleChange`. -/
inductive TextField
  | state
  | siteCode
  | siteName
  | guardName
  | employeeCode
  deriving DecidableEq

/-- `handleChange`: store the sanitized value at the named text field. -/
def handleChange (st : MachineState) (f : TextField) (value : String) :
    MachineState :=
  let v := sanitizeInput value
  { st with formData :=
      match f with
      | TextField.state => { st.formData with state := v }
      | TextField.siteCode => { st.formData with siteCode := v }
      | TextField.siteName => { st.formData with siteName := v }
      | TextField.guardName => { st.formData with guardName := v }
      | TextField.employeeCode => { st.formData with employeeCode := v } }

/-- The corner slot `qrCodeCorner${c}` for `c` in 1..4. -/
def cornerValue (fd : FormData) (c : Nat) : String :=
  if c = 1 then fd.qrCodeCorner1
  else if c = 2 then fd.qrCodeCorner2
  else if c = 3 then fd.qrCodeCorner3
  else fd.qrCodeCorner4

/-- Write the corner slot `qrCodeCorner${c}` for `c` in 1..4. -/
def setCorner (fd : FormData) (c : Nat) (v : String) : FormData :=
  if c = 1 then { fd with qrCodeCorner1 := v }
  else if c = 2 then { fd with qrCodeCorner2 := v }
  else if c = 3 then { fd with qrCodeCorner3 := v }
  else if c = 4 then { fd with qrCodeCorner4 := v }
  else fd

/-- `handleQRScan` from SecureRounds.tsx: validate the raw payload; on
failure surface an error (`false`) and leave the state untouched; on
success store the sanitized payload at the active corner and advance the
corner when it is not the last one. -/
def handleQRScan (st : MachineState) (result : String) :
    MachineState × Bool :=
  if validateQRCode result = false then (st, false)
  else
    ({ st with
        formData := setCorner st.formData st.currentCorner (sanitizeInput result)
        currentCorner :=
          if st.currentCorner < 4 then st.currentCorner + 1
          else st.currentCorner },
      true)

/-- The `gpsLocation` display string set by `handlePhotoCapture`. -/
def gpsLocationText : Option Coordinates → String
  | some c => reprStr c.lat ++ ", " ++ reprStr c.lng
  | none => "GPS unavailable"

/-- `handlePhotoCapture` from SecureRounds.tsx: reject files over 10MB
outright; otherwise keep the photo, discarding out-of-range coordinates
(set to null). -/
def handlePhotoCapture (st : MachineState) (size : Nat)
    (coords : Option Coordinates) : MachineState × Bool :=
  if validateFileSize size 10 = false then (st, false)
  else
    let validCoords :=
      match coords with
      | some c =>
          if validateGPSCoordinates c.lat c.lng then some c else none
      | none => none
    ({ st with
        photoData := some { size := size, coordinates := validCoords }
        formData := { st.formData with gpsLocation := gpsLocationText validCoords } },
      true)

/-- `allQRCodesScanned`: all four corner slots are truthy (non-empty). -/
def allQRCodesScanned (fd : FormData) : Bool :=
  decide (fd.qrCodeCorner1 ≠ "") && decide (fd.qrCodeCorner2 ≠ "") &&
  decide (fd.qrCodeCorner3 ≠ "") && decide (fd.qrCodeCorner4 ≠ "")

/-- One conditional entry of the aggregated `validationErrors` array:
the message is pushed exactly when its check fails. -/
def errIf (ok : Bool) (msg : String) : List String :=
  if ok then [] else [msg]

/-- The `validationErrors` array built by `handleSubmit`, in source order. -/
def validationErrors (st : MachineState) : List String :=
  errIf (validateTextInput st.formData.state 50)
      "State is required and must be valid" ++
  errIf (validateTextInput st.formData.siteCode 20)
      "Site code is required and must be valid" ++
  errIf (validateTextInput st.formData.siteName 100)
      "Site name is required and must be valid" ++
  errIf (validateTextInput st.formData.guardName 100)
      "Guard name is required and must be valid" ++
  errIf (validateTextInput st.formData.employeeCode 50)
      "Employee code is required and must be valid" ++
  errIf (allQRCodesScanned st.formData)
      "All 4 corner QR codes must be scanned" ++
  errIf st.photoData.isSome
      "Selfie with GPS coordinates is required"

/-- The sanitized record inserted into `security_rounds` (the mutable
`timestamp` column, set from the clock, is omitted). -/
structure SubmissionRecord where
  user_id : UserId
  location : String
  guard_name : String
  employee_id : String
  qr_code_corner_1 : String
  qr_code_corner_2 : String
  qr_code_corner_3 : String
  qr_code_corner_4 : String
  gps_coordinates : Option Coordinates
  deriving DecidableEq

/-- Assemble the `submissionData` object from `handleSubmit`. -/
def buildSubmission (uid : UserId) (st : MachineState) : SubmissionRecord :=
  { user_id := uid
    location := sanitizeInput st.formData.state ++ " - " ++
      sanitizeInput st.formData.siteName
    guard_name := sanitizeInput st.formData.guardName
    employee_id := sanitizeInput st.formData.employeeCode
    qr_code_corner_1 := sanitizeInput st.formData.qrCodeCorner1
    qr_code_corner_2 := sanitizeInput st.formData.qrCodeCorner2
    qr_code_corner_3 := sanitizeInput st.formData.qrCodeCorner3
    qr_code_corner_4 := sanitizeInput st.formData.qrCodeCorner4
    gps_coordinates := st.photoData.bind (fun p => p.coordinates) }

/-- The operator-visible outcome of `handleSubmit`. -/
inductive SubmitOutcome
  | authRequired
  | validationFailed (errs : List String)
  | saved
  | storeFailed
  deriving DecidableEq

/-- `handleSubmit` from SecureRounds.tsx. Inputs: the identity returned by
the auth collaborator, whether the store insert succeeds, and the state.
Output: the next state, the surfaced outcome, and the record passed to the
insert call (`none` when no insert is issued). On success the state resets
to `initialState`; on any failure it is retained. -/
def handleSubmit (user : Option UserId) (storeOk : Bool)
    (st : MachineState) : MachineState × SubmitOutcome × Option SubmissionRecord :=
  match user with
  | none => (st, SubmitOutcome.authRequired, none)
  | some uid =>
    if validationErrors st = [] then
      if storeOk then
        (initialState, SubmitOutcome.saved, some (buildSubmission uid st))
      else
        (st, SubmitOutcome.storeFailed, some (buildSubmission uid st))
    else (st, SubmitOutcome.validationFailed (validationErrors st), none)

/-- One user-driven transition of the capture machine: a text edit, a QR
scan, a photo capture, a manual corner selection (UI buttons 1-4), or a
submit attempt. -/
inductive Step : MachineState → MachineState → Prop
  | change (st : MachineState) (f : TextField) (value : String) :
      Step st (handleChange st f value)
  | qrScan (st : MachineState) (raw : String) :
      Step st (handleQRScan st raw).1
  | photo (st : MachineState) (size : Nat) (coords : Option Coordinates) :
      Step st (handlePhotoCapture st size coords).1
  | selectCorner (st : MachineState) (c : Nat) (h1 : 1 ≤ c) (h4 : c ≤ 4) :
      Step st { st with currentCorner := c }
  | submit (st : MachineState) (user : Option UserId) (storeOk : Bool) :
      Step st (handleSubmit user storeOk st).1

/-- States reachable from the initial component state. -/
def Reachable (st : MachineState) : Prop :=
  Relation.ReflTransGen Step initialState st

/-- The sanitization invariant over the nine user-text slots of the state. -/
def Invariant (st : MachineState) : Prop :=
  CleanStr st.formData.state ∧ CleanStr st.formData.siteCode ∧
  CleanStr st.formData.siteName ∧ CleanStr st.formData.guardName ∧
  CleanStr st.formData.employeeCode ∧ CleanStr st.formData.qrCodeCorner1 ∧
  CleanStr st.formData.qrCodeCorner2 ∧ CleanStr st.formData.qrCodeCorner3 ∧
  CleanStr st.formData.qrCodeCorner4

instance (st : MachineState) : Decidable (Invariant st) := by
  unfold Invariant; infer_instance

/-! ## Authorization model (supabase/migrations)

`user_roles` carries a unique row per user (constraint
`user_roles_user_id_unique`), so the table is modelled as a partial map
from identities to role rows; `role_audit_log` as an append-only list. -/

/-- The `user_role` enum. -/
inductive user_role
  | security_guard
  | manager
  | admin
  deriving DecidableEq

/-- One `user_roles` row: the role and the optional `location_access`
array (null = unrestricted). -/
structure RoleRow where
  role : user_role
  location_access : Option (List String)
  deriving DecidableEq

/-- One `role_audit_log` row. `old_role` is a nullable column; `new_role`
is declared NOT NULL, modelled here as an `Option` checked by
`auditRowOk` at insert time. -/
structure AuditEntry where
  performed_by : UserId
  target_user : UserId
  old_role : Option user_role
  new_role : Option user_role
  action : String
  deriving DecidableEq

/-- The database state the policies act on. -/
structure AuthDb where
  roles : UserId → Option RoleRow
  audit : List AuditEntry

/-- `get_user_role`: `SELECT role FROM user_roles WHERE user_id = $1 LIMIT 1`. -/
def get_user_role (db : AuthDb) (u : UserId) : Option user_role :=
  (db.roles u).map (fun rr => rr.role)

/-- `is_admin`: `EXISTS (SELECT 1 FROM user_roles WHERE user_id = $1 AND
role = 'admin')`. -/
def is_admin (db : AuthDb) (u : UserId) : Bool :=
  match db.roles u with
  | some rr => decide (rr.role = user_role.admin)
  | none => false

/-- The relevant columns of a `security_rounds` row for the SELECT policy. -/
structure SecurityRound where
  user_id : UserId
  location : String
  deriving DecidableEq

/-- The RLS policy "Users can view accessible rounds"
(20250713140933 migration): owner, or a manager/admin whose
`location_access` is null or contains the row location. -/
def canViewRound (db : AuthDb) (uid : UserId) (row : SecurityRound) : Bool :=
  decide (uid = row.user_id) ||
    (match db.roles uid with
     | some rr =>
        (decide (rr.role = user_role.manager) ||
         decide (rr.role = user_role.admin)) &&
        (match rr.location_access with
         | none => true
         | some locs => decide (row.location ∈ locs))
     | none => false)

/-- The `audit_role_changes` trigger rows: the affected `user_roles` row
is `(user_id, role)`. -/
inductive TriggerOp
  | ins (newRow : UserId × user_role)
  | upd (oldRow newRow : UserId × user_role)
  | del (oldRow : UserId × user_role)
  deriving DecidableEq

/-- The `role_audit_log` row built by the `audit_role_changes` trigger
function for each operation; the DELETE branch lists no `new_role`
column, so that field is null. -/
def auditEntryFor (actor : UserId) : TriggerOp → AuditEntry
  | TriggerOp.ins n =>
      { performed_by := actor, target_user := n.1, old_role := none,
        new_role := some n.2, action := "INSERT" }
  | TriggerOp.upd o n =>
      { performed_by := actor, target_user := n.1, old_role := some o.2,
        new_role := some n.2, action := "UPDATE" }
  | TriggerOp.del o =>
      { performed_by := actor, target_user := o.1, old_role := some o.2,
        new_role := none, action := "DELETE" }

/-- The NOT NULL constraint on `role_audit_log.new_role`. -/
def auditRowOk (e : AuditEntry) : Bool :=
  e.new_role.isSome

/-- Insert into `role_audit_log`; violating the NOT NULL constraint
raises, aborting the enclosing statement (`none`). -/
def insertAuditEntry (log : List AuditEntry) (e : AuditEntry) :
    Option (List AuditEntry) :=
  if auditRowOk e then some (log ++ [e]) else none

/-- An INSERT of a `user_roles` row together with the AFTER INSERT firing
of `audit_user_roles_changes`; a failing audit insert aborts the whole
statement. -/
def roleInsertStatement (db : AuthDb) (actor target : UserId)
    (rr : RoleRow) : Option AuthDb :=
  match insertAuditEntry db.audit (auditEntryFor actor (TriggerOp.ins (target, rr.role))) with
  | none => none
  | some log =>
      some { roles := fun u => if u = target then some rr else db.roles u
             audit := log }

/-- An UPDATE `SET role = $newRole WHERE user_id = $target` together with
the AFTER UPDATE firing of `audit_user_roles_changes`. When no row
matches, nothing changes and no trigger fires. -/
def roleUpdateStatement (db : AuthDb) (actor target : UserId)
    (newRole : user_role) : Option AuthDb :=
  match db.roles target with
  | none => some db
  | some old =>
    match insertAuditEntry db.audit
        (auditEntryFor actor (TriggerOp.upd (target, old.role) (target, newRole))) with
    | none => none
    | some log =>
        some { roles := fun u =>
                 if u = target then some { old with role := newRole }
                 else db.roles u
               audit := log }

/-- A DELETE `WHERE user_id = $target` together with the AFTER DELETE
firing of `audit_user_roles_changes`. -/
def roleDeleteStatement (db : AuthDb) (actor target : UserId) :
    Option AuthDb :=
  match db.roles target with
  | none => some db
  | some old =>
    match insertAuditEntry db.audit
        (auditEntryFor actor (TriggerOp.del (target, old.role))) with
    | none => none
    | some log =>
        some { roles := fun u => if u = target then none else db.roles u
               audit := log }

/-- `admin_change_user_role` (20250720135339 migration): verify the caller
is admin, forbid self-targeting, run the UPDATE, return TRUE; the
`EXCEPTION WHEN OTHERS` handler turns every raised error into a logged
FALSE, so the function is total and returns a boolean. -/
def admin_change_user_role (db : AuthDb) (caller target : UserId)
    (newRole : user_role) : AuthDb × Bool :=
  if is_admin db caller = false then (db, false)
  else if target = caller then (db, false)
  else
    match roleUpdateStatement db caller target newRole with
    | some db2 => (db2, true)
    | none => (db, false)

/-- `assign_default_role` (latest version, 20250720135339 migration and
its recreation): on a new `auth.users` row, when the identity has no role
row yet, insert `(NEW.id, 'manager')`; any error raised by the insert is
logged and swallowed (`RETURN NEW` either way, so identity creation is
never blocked). `insertFails` abstracts an insert that raises; the
returned boolean is whether identity creation proceeds. -/
def assign_default_role (db : AuthDb) (newUserId : UserId)
    (insertFails : Bool) : AuthDb × Bool :=
  if (db.roles newUserId).isSome then (db, true)
  else if insertFails then (db, true)
  else
    ({ db with roles := fun u =>
        if u = newUserId then some { role := user_role.manager, location_access := none }
        else db.roles u },
      true)

/-- An empty database: no role rows, no audit entries. -/
def emptyAuthDb : AuthDb :=
  { roles := fun _ => none, audit := [] }

/-- A sample database: identity 0 is an admin, identity 1 a manager. -/
def sampleDb : AuthDb :=
  { roles := fun u =>
      if u = 0 then some { role := user_role.admin, location_access := none }
      else if u = 1 then some { role := user_role.manager, location_access := none }
      else none
    audit := [] }

/-! ## Claim theorems -/

/-- Claim C10: `sanitizeInput` is idempotent — sanitizing twice equals
sanitizing once — and its output is a fixed point: it contains none of
the stripped characters and has no leading or trailing whitespace. -/
theorem sanitizeInput_idempotent_claim (s : String) :
    sanitizeInput (sanitizeInput s) = sanitizeInput s ∧
    CleanStr (sanitizeInput s) ∧
    List.dropWhile isJsWhitespace (sanitizeInput s).data = (sanitizeInput s).data ∧
    List.rdropWhile isJsWhitespace (sanitizeInput s).data = (sanitizeInput s).data := by
  refine ⟨sanitizeInput_idempotent s, sanitizeInput_clean s, ?_, ?_⟩
  · exact dropWhile_trimChars _
  · show List.rdropWhile isJsWhitespace (trimChars _) = trimChars _
    rw [trimChars, List.rdropWhile_idempotent]

/-- Claim C6: every raw QR payload that is empty, longer than 500
characters, or contains one of the dangerous patterns (`<script`,
`javascript:`, `data:`, `vbscript:` in any letter case, per
`dangerousPatterns`) is rejected by the scan transition: an error is
surfaced (`false`) and the whole machine state is returned unchanged. -/
theorem qr_reject_preserves_state (st : MachineState) (raw : String)
    (h : raw = "" ∨ 500 < raw.length ∨ dangerousPatterns raw = true) :
    handleQRScan st raw = (st, false) := by
  have hv : validateQRCode raw = false := by
    unfold validateQRCode
    rcases h with h | h | h
    · subst h; simp
    · have h0 : raw.length ≠ 0 := by omega
      simp [h0, h]
    · by_cases h0 : raw.length = 0
      · simp [h0]
      · by_cases h5 : 500 < raw.length
        · simp [h0, h5]
        · simp [h0, h5, h]
  simp [handleQRScan, hv]

/-- Claim C6 witness: a mixed-case `javascript:` payload is rejected from
the initial state, which is left unchanged. -/
theorem qr_reject_preserves_state_witness :
    dangerousPatterns "JaVaScRiPt:alert(1)" = true ∧
    handleQRScan initialState "JaVaScRiPt:alert(1)" = (initialState, false) :=
  ⟨by decide,
   qr_reject_preserves_state initialState "JaVaScRiPt:alert(1)"
     (Or.inr (Or.inr (by decide)))⟩

/-- Claim C7: an accepted payload is stored — sanitized — at the active
corner (overwriting whatever that corner held, since no emptiness
precondition appears below), and the active corner advances to
`min(activeCorner + 1, 4)`. -/
theorem qr_accept_stores_sanitized (st : MachineState) (raw : String)
    (hv : validateQRCode raw = true)
    (h1 : 1 ≤ st.currentCorner) (h4 : st.currentCorner ≤ 4) :
    (handleQRScan st raw).2 = true ∧
    cornerValue (handleQRScan st raw).1.formData st.currentCorner =
      sanitizeInput raw ∧
    (handleQRScan st raw).1.currentCorner = min (st.currentCorner + 1) 4 := by
  have hred : handleQRScan st raw =
      ({ st with
          formData := setCorner st.formData st.currentCorner (sanitizeInput raw)
          currentCorner :=
            if st.currentCorner < 4 then st.currentCorner + 1
            else st.currentCorner }, true) := by
    simp [handleQRScan, hv]
  rw [hred]
  obtain ⟨fd, pd, c⟩ := st
  simp only at h1 h4 ⊢
  refine ⟨trivial, ?_, ?_⟩
  · interval_cases c <;> simp [cornerValue, setCorner]
  · interval_cases c <;> simp

/-- Claim C7 witness: from the initial state, scanning a clean payload
with surrounding whitespace stores the sanitized value `"gate-7"` at
corner 1 and advances to corner 2. -/
theorem qr_accept_stores_sanitized_witness :
    validateQRCode " gate-7 " = true ∧
    sanitizeInput " gate-7 " = "gate-7" ∧
    cornerValue (handleQRScan initialState " gate-7 ").1.formData
      initialState.currentCorner = sanitizeInput " gate-7 " ∧
    (handleQRScan initialState " gate-7 ").1.currentCorner =
      min (initialState.currentCorner + 1) 4 := by
  have h := qr_accept_stores_sanitized initialState " gate-7 "
    (by decide) (by decide) (by decide)
  exact ⟨by decide, by decide, h.2.1, h.2.2⟩

/-- Claim C8: a photo over 10MB is rejected outright with no state
change; any photo within the bound is accepted, storing coordinates
exactly when they are present and in range, and storing `none` for the
coordinates while keeping the photo when they are out of range. -/
theorem photo_capture_claim (st : MachineState) (size : Nat)
    (coords : Option Coordinates) :
    (10 * 1024 * 1024 < size → handlePhotoCapture st size coords = (st, false)) ∧
    (size ≤ 10 * 1024 * 1024 →
      (handlePhotoCapture st size coords).2 = true ∧
      (handlePhotoCapture st size coords).1.photoData =
        some { size := size
               coordinates := coords.bind (fun c =>
                 if validateGPSCoordinates c.lat c.lng then some c else none) } ∧
      ∀ c, coords = some c → validateGPSCoordinates c.lat c.lng = false →
        (handlePhotoCapture st size coords).1.photoData =
          some { size := size, coordinates := none }) := by
  constructor
  · intro h
    have hv : validateFileSize size 10 = false := by
      simp [validateFileSize]; omega
    simp [handlePhotoCapture, hv]
  · intro h
    have hv : validateFileSize size 10 = true := by
      simp [validateFileSize]; omega
    refine ⟨by simp [handlePhotoCapture, hv], ?_, ?_⟩
    · cases coords with
      | none => simp [handlePhotoCapture, hv]
      | some c => simp [handlePhotoCapture, hv]
    · intro c hc hg
      subst hc
      simp [handlePhotoCapture, hv, hg]

/-- Claim C8 witness: a 100-byte photo with latitude 200 is accepted but
its coordinates are discarded to null. -/
theorem photo_capture_claim_witness :
    (handlePhotoCapture initialState 100 (some { lat := 200, lng := 0 })).1.photoData =
      some { size := 100, coordinates := none } :=
  ((photo_capture_claim initialState 100 (some { lat := 200, lng := 0 })).2
    (by decide)).2.2 { lat := 200, lng := 0 } rfl (by decide)

/-- Claim C3: the "Users can view accessible rounds" row policy makes a
`security_rounds` row visible to a requester exactly when the requester
owns the row, or has a manager/admin role row whose `location_access` is
null or contains the row's location. -/
theorem round_read_policy (db : AuthDb) (uid : UserId) (row : SecurityRound) :
    canViewRound db uid row = true ↔
      (uid = row.user_id ∨
        ∃ rr, db.roles uid = some rr ∧
          (rr.role = user_role.manager ∨ rr.role = user_role.admin) ∧
          (rr.location_access = none ∨
            ∃ locs, rr.location_access = some locs ∧ row.location ∈ locs)) := by
  unfold canViewRound
  rcases hr : db.roles uid with _ | rr
  · simp [hr]
  · rcases hl : rr.location_access with _ | locs
    · simp [hr, hl]
    · simp [hr, hl]

theorem is_admin_iff (db : AuthDb) (u : UserId) :
    is_admin db u = true ↔ get_user_role db u = some user_role.admin := by
  unfold is_admin get_user_role
  cases db.roles u <;> simp

theorem roleUpdateStatement_spec (db : AuthDb) (a t : UserId)
    (r : user_role) :
    ∃ db2, roleUpdateStatement db a t r = some db2 ∧
      db2.roles t = (db.roles t).map (fun rr => { rr with role := r }) := by
  unfold roleUpdateStatement
  rcases h : db.roles t with _ | old
  · exact ⟨db, rfl, by simp [h]⟩
  · have he : insertAuditEntry db.audit
        (auditEntryFor a (TriggerOp.upd (t, old.role) (t, r))) =
        some (db.audit ++ [auditEntryFor a (TriggerOp.upd (t, old.role) (t, r))]) := by
      simp [insertAuditEntry, auditRowOk, auditEntryFor]
    simp only [he]
    exact ⟨_, rfl, by simp⟩

/-- Claim C1: the privileged role change `admin_change_user_role` returns
TRUE and applies the role update exactly when the caller's role is admin
and the target is a different identity; in every other case it returns
FALSE (the `EXCEPTION` handler converts the raised errors into a boolean,
so nothing propagates to the caller) and leaves the database unchanged. -/
theorem role_change_guard (db : AuthDb) (caller target : UserId)
    (newRole : user_role) :
    ((admin_change_user_role db caller target newRole).2 = true ↔
      (get_user_role db caller = some user_role.admin ∧ target ≠ caller)) ∧
    (¬ (get_user_role db caller = some user_role.admin ∧ target ≠ caller) →
      admin_change_user_role db caller target newRole = (db, false)) ∧
    ((get_user_role db caller = some user_role.admin ∧ target ≠ caller) →
      (admin_change_user_role db caller target newRole).1.roles target =
        (db.roles target).map (fun rr => { rr with role := newRole })) := by
  obtain ⟨db2, hdb2, hroles⟩ := roleUpdateStatement_spec db caller target newRole
  by_cases ha : is_admin db caller = true
  · by_cases ht : target = caller
    · have hfalse : admin_change_user_role db caller target newRole = (db, false) := by
        simp [admin_change_user_role, ha, ht]
      refine ⟨?_, fun _ => hfalse, ?_⟩
      · rw [hfalse]; simp [ht]
      · rintro ⟨-, hne⟩; exact absurd ht hne
    · have htrue : admin_change_user_role db caller target newRole = (db2, true) := by
        simp [admin_change_user_role, ha, ht, hdb2]
      refine ⟨?_, ?_, fun _ => by rw [htrue]; exact hroles⟩
      · rw [htrue]
        simp [ht, (is_admin_iff db caller).mp ha]
      · rintro hn
        exact absurd ⟨(is_admin_iff db caller).mp ha, ht⟩ hn
  · have hfalse : admin_change_user_role db caller target newRole = (db, false) := by
      simp [admin_change_user_role]
      intro h
      exact absurd h ha
    have hrole : ¬ get_user_role db caller = some user_role.admin := by
      intro h
      exact ha ((is_admin_iff db caller).mpr h)
    refine ⟨?_, fun _ => hfalse, ?_⟩
    · rw [hfalse]; simp [hrole]
    · rintro ⟨h, -⟩; exact absurd h hrole

/-- Claim C1 witness: in `sampleDb`, admin 0 changing manager 1 succeeds;
manager 1 targeting admin 0 fails with FALSE and no change; admin 0
targeting itself fails with FALSE and no change. -/
theorem role_change_guard_witness :
    (admin_change_user_role sampleDb 0 1 user_role.admin).2 = true ∧
    admin_change_user_role sampleDb 1 0 user_role.admin = (sampleDb, false) ∧
    admin_change_user_role sampleDb 0 0 user_role.manager = (sampleDb, false) :=
  ⟨(role_change_guard sampleDb 0 1 user_role.admin).1.mpr ⟨by decide, by decide⟩,
   (role_change_guard sampleDb 1 0 user_role.admin).2.1 (by decide),
   (role_change_guard sampleDb 0 0 user_role.manager).2.1 (by decide)⟩

/-- Claim C2 counterexample: a fresh identity (7) with no role row gets
role `manager`, not `security_guard`, from `assign_default_role`. -/
theorem default_role_not_security_guard :
    emptyAuthDb.roles 7 = none ∧
    (assign_default_role emptyAuthDb 7 false).1.roles 7 ≠
      some { role := user_role.security_guard, location_access := none } ∧
    (assign_default_role emptyAuthDb 7 false).1.roles 7 =
      some { role := user_role.manager, location_access := none } := by
  refine ⟨rfl, by decide, by decide⟩

/-- Claim C2 (amended): a newly created identity with no existing role row
is automatically assigned the role `manager`; identity creation always
proceeds (the trigger returns NEW), and a failing role insert is swallowed
leaving the role table unchanged. -/
theorem default_role_assignment (db : AuthDb) (u : UserId)
    (insertFails : Bool) :
    (assign_default_role db u insertFails).2 = true ∧
    (db.roles u = none → insertFails = false →
      (assign_default_role db u insertFails).1.roles u =
        some { role := user_role.manager, location_access := none }) ∧
    (db.roles u = none → insertFails = true →
      (assign_default_role db u insertFails).1 = db) ∧
    ((db.roles u).isSome = true →
      (assign_default_role db u insertFails).1 = db) := by
  refine ⟨?_, ?_, ?_, ?_⟩
  · unfold assign_default_role
    split
    · rfl
    · split <;> rfl
  · intro hn hf
    simp [assign_default_role, hn, hf]
  · intro hn hf
    simp [assign_default_role, hn, hf]
  · intro hs
    simp [assign_default_role, hs]

/-- Claim C2 (amended) witness: identity 3 in the empty database gets the
manager role and creation proceeds. -/
theorem default_role_assignment_witness :
    (assign_default_role emptyAuthDb 3 false).2 = true ∧
    (assign_default_role emptyAuthDb 3 false).1.roles 3 =
      some { role := user_role.manager, location_access := none } :=
  ⟨(default_role_assignment emptyAuthDb 3 false).1,
   (default_role_assignment emptyAuthDb 3 false).2.1 rfl rfl⟩

/-- Claim C5 (code bug): deleting an existing `user_roles` row can never
produce its audit entry — the `audit_role_changes` DELETE branch builds a
`role_audit_log` row with no `new_role`, violating that column's NOT NULL
constraint, so the audit insert raises and the whole delete aborts
(`none`): no audit entry matching the delete is ever appended. -/
theorem audit_delete_aborts :
    (sampleDb.roles 1).isSome = true ∧
    auditRowOk (auditEntryFor 0 (TriggerOp.del (1, user_role.manager))) = false ∧
    roleDeleteStatement sampleDb 0 1 = none := by
  refine ⟨by decide, by decide, rfl⟩

theorem errIf_eq_nil {b : Bool} {m : String} : errIf b m = [] ↔ b = true := by
  cases b <;> simp [errIf]

theorem mem_errIf_self {b : Bool} {m : String} (h : b = false) :
    m ∈ errIf b m := by
  subst h; simp [errIf]

/-- Claim C4: with an authenticated identity present, `handleSubmit`
issues an insert exactly when its validation passes; validation passes
exactly when the five text fields validate against their bounds
(50/20/100/100/50), all four corners are non-empty, and a photo is
present; every failing check contributes its message to the aggregated
error list (not only the first); and on any validation failure the state
is returned unchanged, no insert is issued, and repeating the submit is a
no-op returning the same result. -/
theorem submit_gating (uid : UserId) (storeOk : Bool) (st : MachineState) :
    (((handleSubmit (some uid) storeOk st).2.2).isSome = true ↔
      validationErrors st = []) ∧
    (validationErrors st = [] ↔
      (validateTextInput st.formData.state 50 = true ∧
       validateTextInput st.formData.siteCode 20 = true ∧
       validateTextInput st.formData.siteName 100 = true ∧
       validateTextInput st.formData.guardName 100 = true ∧
       validateTextInput st.formData.employeeCode 50 = true ∧
       allQRCodesScanned st.formData = true ∧
       st.photoData.isSome = true)) ∧
    (validateTextInput st.formData.state 50 = false →
      "State is required and must be valid" ∈ validationErrors st) ∧
    (validateTextInput st.formData.siteCode 20 = false →
      "Site code is required and must be valid" ∈ validationErrors st) ∧
    (validateTextInput st.formData.siteName 100 = false →
      "Site name is required and must be valid" ∈ validationErrors st) ∧
    (validateTextInput st.formData.guardName 100 = false →
      "Guard name is required and must be valid" ∈ validationErrors st) ∧
    (validateTextInput st.formData.employeeCode 50 = false →
      "Employee code is required and must be valid" ∈ validationErrors st) ∧
    (allQRCodesScanned st.formData = false →
      "All 4 corner QR codes must be scanned" ∈ validationErrors st) ∧
    (st.photoData.isSome = false →
      "Selfie with GPS coordinates is required" ∈ validationErrors st) ∧
    (validationErrors st ≠ [] →
      handleSubmit (some uid) storeOk st =
        (st, SubmitOutcome.validationFailed (validationErrors st), none)) ∧
    (validationErrors st ≠ [] →
      handleSubmit (some uid) storeOk ((handleSubmit (some uid) storeOk st).1) =
        handleSubmit (some uid) storeOk st) := by
  refine ⟨?_, ?_, ?_, ?_, ?_, ?_, ?_, ?_, ?_, ?_, ?_⟩
  · by_cases he : validationErrors st = []
    · cases storeOk <;> simp [handleSubmit, he]
    · simp [handleSubmit, he]
  · simp [validationErrors, List.append_eq_nil, errIf_eq_nil]
  · intro h
    exact List.mem_append_left _ (List.mem_append_left _
      (List.mem_append_left _ (List.mem_append_left _
        (List.mem_append_left _ (List.mem_append_left _ (mem_errIf_self h))))))
  · intro h
    exact List.mem_append_left _ (List.mem_append_left _
      (List.mem_append_left _ (List.mem_append_left _
        (List.mem_append_left _ (List.mem_append_right _ (mem_errIf_self h))))))
  · intro h
    exact List.mem_append_left _ (List.mem_append_left _
      (List.mem_append_left _ (List.mem_append_left _
        (List.mem_append_right _ (mem_errIf_self h)))))
  · intro h
    exact List.mem_append_left _ (List.mem_append_left _
      (List.mem_append_left _ (List.mem_append_right _ (mem_errIf_self h))))
  · intro h
    exact List.mem_append_left _ (List.mem_append_left _
      (List.mem_append_right _ (mem_errIf_self h)))
  · intro h
    exact List.mem_append_left _ (List.mem_append_right _ (mem_errIf_self h))
  · intro h
    exact List.mem_append_right _ (mem_errIf_self h)
  · intro h
    simp [handleSubmit, h]
  · intro h
    have hfix : handleSubmit (some uid) storeOk st =
        (st, SubmitOutcome.validationFailed (validationErrors st), none) := by
      simp [handleSubmit, h]
    rw [hfix]
    exact hfix

/-- Claim C4 witness: the empty initial state fails validation; every
check's message is listed (photo shown here), the state is unchanged, no
insert is issued, and the outcome carries the aggregated list. -/
theorem submit_gating_witness :
    validationErrors initialState ≠ [] ∧
    "Selfie with GPS coordinates is required" ∈ validationErrors initialState ∧
    handleSubmit (some 0) true initialState =
      (initialState,
       SubmitOutcome.validationFailed (validationErrors initialState), none) := by
  have h := submit_gating 0 true initialState
  exact ⟨by decide, h.2.2.2.2.2.2.2.2.1 (by decide),
    h.2.2.2.2.2.2.2.2.2.1 (by decide)⟩

theorem invariant_handleChange {st : MachineState} (h : Invariant st)
    (f : TextField) (v : String) : Invariant (handleChange st f v) := by
  obtain ⟨h1, h2, h3, h4, h5, h6, h7, h8, h9⟩ := h
  cases f
  · exact ⟨sanitizeInput_clean _, h2, h3, h4, h5, h6, h7, h8, h9⟩
  · exact ⟨h1, sanitizeInput_clean _, h3, h4, h5, h6, h7, h8, h9⟩
  · exact ⟨h1, h2, sanitizeInput_clean _, h4, h5, h6, h7, h8, h9⟩
  · exact ⟨h1, h2, h3, sanitizeInput_clean _, h5, h6, h7, h8, h9⟩
  · exact ⟨h1, h2, h3, h4, sanitizeInput_clean _, h6, h7, h8, h9⟩

theorem invariant_handleQRScan {st : MachineState} (h : Invariant st)
    (raw : String) : Invariant (handleQRScan st raw).1 := by
  obtain ⟨h1, h2, h3, h4, h5, h6, h7, h8, h9⟩ := h
  unfold handleQRScan
  split
  · exact ⟨h1, h2, h3, h4, h5, h6, h7, h8, h9⟩
  · unfold setCorner
    split
    · exact ⟨h1, h2, h3, h4, h5, sanitizeInput_clean _, h7, h8, h9⟩
    · split
      · exact ⟨h1, h2, h3, h4, h5, h6, sanitizeInput_clean _, h8, h9⟩
      · split
        · exact ⟨h1, h2, h3, h4, h5, h6, h7, sanitizeInput_clean _, h9⟩
        · split
          · exact ⟨h1, h2, h3, h4, h5, h6, h7, h8, sanitizeInput_clean _⟩
          · exact ⟨h1, h2, h3, h4, h5, h6, h7, h8, h9⟩

theorem invariant_handlePhotoCapture {st : MachineState} (h : Invariant st)
    (size : Nat) (coords : Option Coordinates) :
    Invariant (handlePhotoCapture st size coords).1 := by
  obtain ⟨h1, h2, h3, h4, h5, h6, h7, h8, h9⟩ := h
  unfold handlePhotoCapture
  split
  · exact ⟨h1, h2, h3, h4, h5, h6, h7, h8, h9⟩
  · exact ⟨h1, h2, h3, h4, h5, h6, h7, h8, h9⟩

theorem invariant_handleSubmit {st : MachineState} (h : Invariant st)
    (user : Option UserId) (storeOk : Bool) :
    Invariant (handleSubmit user storeOk st).1 := by
  cases user with
  | none => exact h
  | some uid =>
    simp only [handleSubmit]
    split
    · split
      · show Invariant initialState
        decide
      · exact h
    · exact h

/-- Claim C9: every state reachable from the initial capture-machine
state keeps the nine user-text slots (the five form fields and the four
corner payloads) free of the characters `< > " ' &` — the invariant holds
initially and is preserved by every transition because each stores only
sanitized values. -/
theorem reachable_states_sanitized (st : MachineState)
    (h : Reachable st) : Invariant st := by
  unfold Reachable at h
  induction h with
  | refl => decide
  | tail hsteps hstep ih =>
    cases hstep with
    | change f v => exact invariant_handleChange ih f v
    | qrScan raw => exact invariant_handleQRScan ih raw
    | photo size coords => exact invariant_handlePhotoCapture ih size coords
    | selectCorner c hc1 hc4 => exact ih
    | submit user storeOk => exact invariant_handleSubmit ih user storeOk

/-- Claim C9 witness: the state reached by one transition that types a
dirty guard name satisfies the invariant (the stored value was
sanitized on the way in). -/
theorem reachable_states_sanitized_witness :
    Reachable (handleChange initialState TextField.guardName " <b>guard& ") ∧
    Invariant (handleChange initialState TextField.guardName " <b>guard& ") :=
  ⟨Relation.ReflTransGen.single
     (Step.change initialState TextField.guardName " <b>guard& "),
   reachable_states_sanitized _
     (Relation.ReflTransGen.single
       (Step.change initialState TextField.guardName " <b>guard& "))⟩

end PatrolCheckIn
